import Mathlib

/-!
Verification of the terplounge server core against its specification.

The repository ships one source file, `server/src/api.rs` (HTTP glue).
The session registry (`session.rs`), the comparison engine (`compare.rs`)
and the metadata loader (`metadata.rs`) are referenced by `api.rs` but are
not present; those parts are modelled from the specification, and each such
definition carries a doc comment saying so.  Everything else is a direct
shallow embedding of `api.rs`.
-/

namespace Terplounge

/-! ## Transcript comparison engine (spec §4.3) -/

/-- A diff segment: a classified span of text, `equal` appearing in both
texts, `insert` only in the transcript, `delete` only in the reference. -/
inductive Seg (α : Type) where
  | equal (a : α)
  | insert (a : α)
  | delete (a : α)
  deriving DecidableEq, Repr

/-- Modelled from the spec: `compare.rs` is not under `src/`.  Length of the
longest common subsequence of two token lists, the cost measure of the
"minimal-edit alignment (longest-common-subsequence-based)" required by
spec §4.3. -/
def lcsLen {α : Type} [DecidableEq α] : List α → List α → Nat
  | [], _ => 0
  | _, [] => 0
  | a :: as, b :: bs =>
    if a = b then lcsLen as bs + 1
    else max (lcsLen as (b :: bs)) (lcsLen (a :: as) bs)
  termination_by as bs => as.length + bs.length

/-- Modelled from the spec: `compare.rs` is not under `src/`.  The
comparison engine of spec §4.3 on token lists: an LCS-based minimal-edit
alignment producing `equal` / `insert` / `delete` runs in order, matching a
common token first (the spec's tie-break favouring a common prefix). -/
def diff {α : Type} [DecidableEq α] : List α → List α → List (Seg α)
  | [], [] => []
  | [], b :: bs => .insert b :: diff [] bs
  | a :: as, [] => .delete a :: diff as []
  | a :: as, b :: bs =>
    if a = b then .equal a :: diff as bs
    else if lcsLen (a :: as) bs ≤ lcsLen as (b :: bs) then
      .delete a :: diff as (b :: bs)
    else
      .insert b :: diff (a :: as) bs
  termination_by as bs => as.length + bs.length

/-- Concatenation of the `equal` and `insert` segments in order, skipping
`delete`: the transcript-side reconstruction of a diff. -/
def restoreNew {α : Type} : List (Seg α) → List α
  | [] => []
  | .equal a :: s => a :: restoreNew s
  | .insert a :: s => a :: restoreNew s
  | .delete _ :: s => restoreNew s

/-- Concatenation of the `equal` and `delete` segments in order, skipping
`insert`: the reference-side reconstruction of a diff. -/
def restoreOld {α : Type} : List (Seg α) → List α
  | [] => []
  | .equal a :: s => a :: restoreOld s
  | .insert _ :: s => restoreOld s
  | .delete a :: s => a :: restoreOld s

theorem restore_diff {α : Type} [DecidableEq α] (as bs : List α) :
    restoreOld (diff as bs) = as ∧ restoreNew (diff as bs) = bs := by
  induction as, bs using diff.induct with
  | case1 => simp [diff, restoreOld, restoreNew]
  | case2 b bs ih => rw [diff]; simp [restoreOld, restoreNew, ih]
  | case3 a as ih => rw [diff]; simp [restoreOld, restoreNew, ih]
  | case4 as b bs ih =>
    rw [diff]; simp [restoreOld, restoreNew, ih]
  | case5 a as b bs h hle ih =>
    rw [diff]; simp [h, hle, restoreOld, restoreNew, ih]
  | case6 a as b bs h hle ih =>
    rw [diff]; simp [h, hle, restoreOld, restoreNew, ih]

/-- C1: for every pair of (reference, transcript) token sequences, the
ordered diff segments satisfy both reconstruction equations: the `equal`
and `insert` segments in order concatenate to the transcript, and the
`equal` and `delete` segments in order concatenate to the reference. -/
theorem diff_reconstruction (reference transcript : List String) :
    restoreNew (diff reference transcript) = transcript ∧
      restoreOld (diff reference transcript) = reference :=
  ⟨(restore_diff reference transcript).2, (restore_diff reference transcript).1⟩

/-! ## Session data model and registry (spec §3, §4.1) -/

/-- Session lifecycle states, spec §4.2. -/
inductive Status where
  | connecting
  | recording
  | closingRequested
  | closed
  | errored
  deriving DecidableEq

/-- Modelled from the spec: `session.rs` is not under `src/`.  The session
entity of spec §3; `transcript` and `recording_file` are optional exactly as
the spec describes (`transcript` absent until recognition completes), so the
accessors `session.transcript()` and `session.recording_file` used by
`api.rs` are these optional fields. -/
structure SessionData where
  uuid : String
  created_at : ℚ
  language : String
  sample_rate : Nat
  resource : Option String
  status : Status
  recording_file : Option String
  transcript : Option String
  deriving DecidableEq

/-- Modelled from the spec: the registry is a table of sessions keyed by
their generated id (the sole external handle); ids are unique. -/
abbrev Registry := List (String × SessionData)

/-- Modelled from the spec: `session.rs` is not under `src/`.  Lookup of a
session by uuid; the two-stage `find_session_with_uuid` / `get_session`
lookup of `api.rs` is collapsed into one keyed lookup, as the id is the
sole external handle (spec §3). -/
def findSession : Registry → String → Option SessionData
  | [], _ => none
  | p :: ps, uuid => if p.1 == uuid then some p.2 else findSession ps uuid

/-- Modelled from the spec: the status transition applied by
`mark_for_closure` (spec §4.1): `Recording` and `Connecting` become
`ClosingRequested`; every other status is left unchanged. -/
def closeStatus : Status → Status
  | .recording => .closingRequested
  | .connecting => .closingRequested
  | s => s

/-- Modelled from the spec: `session.rs` is not under `src/`.
`mark_session_for_closure_uuid` (called by the `close` route of `api.rs`):
applies `closeStatus` to the session with the given uuid, if any; a no-op
otherwise. -/
def mark_session_for_closure : Registry → String → Registry
  | [], _ => []
  | p :: ps, uuid =>
    if p.1 == uuid then (p.1, { p.2 with status := closeStatus p.2.status }) :: ps
    else p :: mark_session_for_closure ps uuid

theorem closeStatus_closeStatus (s : Status) : closeStatus (closeStatus s) = closeStatus s := by
  cases s <;> rfl

theorem findSession_mark (reg : Registry) (uuid : String) (s : SessionData)
    (h : findSession reg uuid = some s) :
    findSession (mark_session_for_closure reg uuid) uuid =
      some { s with status := closeStatus s.status } := by
  induction reg with
  | nil => simp [findSession] at h
  | cons p ps ih =>
    by_cases hp : p.1 == uuid
    · rw [findSession, if_pos hp] at h
      rw [mark_session_for_closure, if_pos hp, findSession, if_pos hp]
      cases h; rfl
    · rw [findSession, if_neg hp] at h
      rw [mark_session_for_closure, if_neg hp, findSession, if_neg hp]
      exact ih h

theorem mark_noop_of_fixed (reg : Registry) (uuid : String)
    (h : ∀ s, findSession reg uuid = some s → closeStatus s.status = s.status) :
    mark_session_for_closure reg uuid = reg := by
  induction reg with
  | nil => rfl
  | cons p ps ih =>
    by_cases hp : p.1 == uuid
    · have hfix := h p.2 (by rw [findSession, if_pos hp])
      rw [mark_session_for_closure, if_pos hp, hfix]
    · rw [mark_session_for_closure, if_neg hp]
      refine congrArg (p :: ·) (ih fun s hs => h s ?_)
      rw [findSession, if_neg hp]; exact hs

theorem mark_idempotent (reg : Registry) (uuid : String) :
    mark_session_for_closure (mark_session_for_closure reg uuid) uuid =
      mark_session_for_closure reg uuid := by
  induction reg with
  | nil => rfl
  | cons p ps ih =>
    by_cases hp : p.1 == uuid
    · rw [mark_session_for_closure, if_pos hp, mark_session_for_closure, if_pos hp]
      simp [closeStatus_closeStatus]
    · rw [mark_session_for_closure, if_neg hp, mark_session_for_closure, if_neg hp, ih]

/-- C5: `mark_for_closure` moves a `Recording` or `Connecting` session to
`ClosingRequested`; on a `Closed`, `Errored` or absent session it is a
no-op that changes no state; and repeating it has the same effect as one
call. -/
theorem mark_for_closure_spec (reg : Registry) (uuid : String) :
    (∀ s, findSession reg uuid = some s →
        (s.status = .recording ∨ s.status = .connecting) →
        findSession (mark_session_for_closure reg uuid) uuid =
          some { s with status := .closingRequested }) ∧
    (∀ s, findSession reg uuid = some s →
        (s.status = .closed ∨ s.status = .errored) →
        mark_session_for_closure reg uuid = reg) ∧
    (findSession reg uuid = none → mark_session_for_closure reg uuid = reg) ∧
    mark_session_for_closure (mark_session_for_closure reg uuid) uuid =
      mark_session_for_closure reg uuid := by
  refine ⟨?_, ?_, ?_, mark_idempotent reg uuid⟩
  · intro s hs hstat
    have := findSession_mark reg uuid s hs
    rcases hstat with h | h <;> rw [h] at this <;> exact this
  · intro s hs hstat
    refine mark_noop_of_fixed reg uuid fun t ht => ?_
    rw [hs] at ht; cases ht
    rcases hstat with h | h <;> rw [h] <;> rfl
  · intro hnone
    refine mark_noop_of_fixed reg uuid fun t ht => ?_
    rw [hnone] at ht; cases ht

/-! ## Request handlers embedded from `api.rs` -/

/-- Outcome of a request handler: a successful reply, a `NotFound`
rejection, or a panic of the handler (an `unwrap`/`expect` failure in the
Rust code). -/
inductive RouteResult (α : Type) where
  | ok (a : α)
  | notFound
  | panic
  deriving DecidableEq

/-- The `status` route of `api.rs` (lines 181–191): unknown uuid rejects
with not-found; otherwise the session's status is returned.  The `status`
field is always present on a session (spec §3), so the `.unwrap()` on
`session.status()` always succeeds. -/
def status_route (reg : Registry) (uuid : String) : RouteResult Status :=
  match findSession reg uuid with
  | some session => .ok session.status
  | none => .notFound

/-- The `transcript` route of `api.rs` (lines 238–246): unknown uuid
rejects with not-found; otherwise the handler returns
`session.transcript().unwrap()` — a panic when the transcript is still
absent. -/
def transcript_route (reg : Registry) (uuid : String) : RouteResult String :=
  match findSession reg uuid with
  | some session =>
    match session.transcript with
    | some t => .ok t
    | none => .panic
  | none => .notFound

/-- The `download_audio` handler of `api.rs` (lines 93–119).  `fs` maps a
path to the bytes of the file stored there, if any; `nRead` is the byte
count returned by the handler's single `f.read(&mut buffer)` call, which
under the `Read` contract may be any value up to the buffer size (the
handler discards it: `let _ = f.read(...)`).  The buffer is
zero-initialised at the file's metadata length and sent whole.  Each
`none` branch is an `unwrap`/`expect` in the source, hence a panic. -/
def download_audio (reg : Registry) (fs : String → Option (List Nat))
    (nRead : Nat) (uuid : String) : RouteResult (List Nat) :=
  match findSession reg uuid with
  | none => .panic
  | some session =>
    match session.recording_file with
    | none => .panic
    | some path =>
      match fs path with
      | none => .panic
      | some contents =>
        let n := min nRead contents.length
        .ok (contents.take n ++ List.replicate (contents.length - n) 0)

/-- A session whose recognition has not yet completed: still `Recording`,
no transcript. -/
def pendingSession : SessionData where
  uuid := "u1"
  created_at := 1
  language := "de"
  sample_rate := 44100
  resource := none
  status := .recording
  recording_file := some "u1.wav"
  transcript := none

/-- A session still `Recording` whose recording file has not been
assigned. -/
def recordingSession : SessionData where
  uuid := "u2"
  created_at := 2
  language := "de"
  sample_rate := 44100
  resource := none
  status := .recording
  recording_file := none
  transcript := none

/-- A `Closed` session with a finalized recording file and a transcript. -/
def closedSession : SessionData where
  uuid := "u3"
  created_at := 3
  language := "de"
  sample_rate := 44100
  resource := none
  status := .closed
  recording_file := some "u3.wav"
  transcript := some "hello"

/-- C2: refuted on the code — for a session that exists but whose
transcript has not yet been produced, the transcript route panics
(`session.transcript().unwrap()` on `None`) instead of returning a
distinguishable NotReady result. -/
theorem transcript_route_pending_panics :
    transcript_route [("u1", pendingSession)] "u1" = .panic := rfl

/-- C4: refuted on the code — for a session still `Recording` whose
recording file is not yet assigned, the recording route panics
(`session.recording_file.unwrap()` on `None`) instead of returning an
error distinct from file-not-found. -/
theorem recording_route_recording_panics :
    download_audio [("u2", recordingSession)] (fun _ => none) 0 "u2" = .panic := rfl

/-- C3: refuted on the code — for a `Closed` session whose finalized file
holds the bytes `[1, 2]`, a run in which the handler's single unchecked
`read` call returns 1 byte (legal under the `Read` contract, and
guaranteed for files beyond the kernel's single-read maximum) answers
`[1, 0]`: the file's length with zero padding, not the file's bytes. -/
theorem download_audio_short_read_truncates :
    download_audio [("u3", closedSession)]
        (fun p => if p = "u3.wav" then some [1, 2] else none) 1 "u3" = .ok [1, 0] ∧
      ([1, 0] : List Nat) ≠ [1, 2] :=
  ⟨rfl, by decide⟩

/-- C6: the status route answers `NotFound` for an id absent from the
registry, and the session's current status for a present id. -/
theorem status_route_spec (reg : Registry) (uuid : String) :
    (findSession reg uuid = none → status_route reg uuid = .notFound) ∧
    (∀ s, findSession reg uuid = some s → status_route reg uuid = .ok s.status) := by
  constructor
  · intro h; rw [status_route, h]
  · intro s h; rw [status_route, h]

theorem status_route_spec_witness :
    status_route [("u3", closedSession)] "nope" = .notFound ∧
      status_route [("u3", closedSession)] "u3" = .ok Status.closed :=
  ⟨(status_route_spec [("u3", closedSession)] "nope").1 rfl,
    (status_route_spec [("u3", closedSession)] "u3").2 closedSession rfl⟩

theorem mark_for_closure_spec_witness :
    findSession (mark_session_for_closure [("u1", pendingSession)] "u1") "u1" =
        some { pendingSession with status := Status.closingRequested } ∧
      mark_session_for_closure [("u3", closedSession)] "u3" = [("u3", closedSession)] ∧
      mark_session_for_closure [("u3", closedSession)] "nope" = [("u3", closedSession)] :=
  ⟨(mark_for_closure_spec [("u1", pendingSession)] "u1").1 pendingSession rfl (Or.inl rfl),
    (mark_for_closure_spec [("u3", closedSession)] "u3").2.1 closedSession rfl (Or.inl rfl),
    (mark_for_closure_spec [("u3", closedSession)] "nope").2.2.1 rfl⟩

/-! ## Session listing (`index`, `api.rs` lines 21–32) -/

/-- The comparator of `sessions.sort_by(|a, b| a.created_at.partial_cmp(&b.created_at) ...)`
in `index`: ascending order of `created_at`. -/
def createdAtLe (a b : SessionData) : Prop := a.created_at ≤ b.created_at

instance : DecidableRel createdAtLe :=
  fun a b => inferInstanceAs (Decidable (a.created_at ≤ b.created_at))

instance : IsTotal SessionData createdAtLe :=
  ⟨fun a b => le_total a.created_at b.created_at⟩

instance : IsTrans SessionData createdAtLe :=
  ⟨fun _ _ _ h h2 => le_trans h h2⟩

/-- The `index` handler of `api.rs`: takes the registry's sessions (in
whatever order the interleaving of `create` calls produced them) and sorts
them by `created_at` ascending; `sort_by` is embedded as a stable
comparison sort. -/
def indexSessions (sessions : List SessionData) : List SessionData :=
  List.insertionSort createdAtLe sessions

/-- C7: the session listing is sorted in ascending order of `created_at`,
whatever order the input sessions arrive in, and is a permutation of
them. -/
theorem indexSessions_sorted (sessions : List SessionData) :
    List.Sorted createdAtLe (indexSessions sessions) ∧
      List.Perm (indexSessions sessions) sessions :=
  ⟨List.sorted_insertionSort createdAtLe sessions,
    List.perm_insertionSort createdAtLe sessions⟩

/-! ## Determinism and the two diff presentations -/

/-- A batch of comparison-engine invocations (each call is a pair of
reference and transcript token lists), evaluated in order.  The engine
takes no other state, embedding the spec's "pure and deterministic"
contract. -/
def runCompareCalls (calls : List (List String × List String)) :
    List (List (Seg String)) :=
  calls.map fun c => diff c.1 c.2

/-- C8: the comparison engine is deterministic — any two invocations on
the same (reference, transcript) pair give identical output, wherever they
occur in any two call sequences (so independent of call order and of
surrounding calls for other sessions). -/
theorem compare_deterministic (calls1 calls2 : List (List String × List String))
    (i j : Nat) (p : List String × List String)
    (h1 : calls1[i]? = some p) (h2 : calls2[j]? = some p) :
    (runCompareCalls calls1)[i]? = (runCompareCalls calls2)[j]? := by
  simp [runCompareCalls, List.getElem?_map, h1, h2]

theorem compare_deterministic_witness :
    (runCompareCalls [(["a"], ["b"])])[0]? =
      (runCompareCalls [(["x"], ["y"]), (["a"], ["b"])])[1]? :=
  compare_deterministic _ _ 0 1 (["a"], ["b"]) rfl rfl

/-- Modelled from the spec: `compare.rs` and `metadata.rs` are not under
`src/`.  The environment both presentations read: the metadata loader's
reference text and the session's transcript, tokenized, each possibly
absent (NotFound / NotReady). -/
structure CompareEnv where
  referenceTokens : String → Option (List String)
  transcriptTokens : String → Option (List String)

/-- The record rendered by the `compare` route's interactive view. -/
structure ComparisonView where
  resource : String
  uuid : String
  lang : String
  segments : List (Seg String)

/-- Modelled from the spec: `compare.rs` is not under `src/`.
`get_comparison`, the interactive presentation consumed by the `compare`
route of `api.rs` (lines 193–211): loads the reference text and the
transcript and runs the engine. -/
def get_comparison (env : CompareEnv) (resource uuid lang : String) :
    Option ComparisonView :=
  match env.referenceTokens resource, env.transcriptTokens uuid with
  | some r, some t =>
    some { resource := resource, uuid := uuid, lang := lang, segments := diff r t }
  | _, _ => none

/-- Modelled from the spec: `compare.rs` is not under `src/`.  `changes`,
the machine-readable presentation consumed by the `changes` route of
`api.rs` (lines 213–227): loads the same reference text and transcript and
runs the same engine, returning the bare segment list for JSON encoding. -/
def changes (env : CompareEnv) (resource uuid lang : String) :
    Option (List (Seg String)) :=
  match env.referenceTokens resource, env.transcriptTokens uuid with
  | some r, some t => some (diff r t)
  | _, _ => none

/-- C9: for every (resource, session, language) triple, the rendered
comparison view and the machine-readable listing carry identical
underlying diff segments (they differ only in the external encoding). -/
theorem compare_changes_agree (env : CompareEnv) (resource uuid lang : String) :
    Option.map ComparisonView.segments (get_comparison env resource uuid lang) =
      changes env resource uuid lang := by
  unfold get_comparison changes
  cases env.referenceTokens resource <;> cases env.transcriptTokens uuid <;> rfl

/-! ## Session creation (`chat` route, `api.rs` lines 138–152) -/

/-- Rust's `str::parse::<u32>`: an optional leading `+`, then one or more
ASCII digits, and the value must fit in 32 bits; anything else fails. -/
def parseU32 (s : String) : Option Nat :=
  let cs := if s.data.head? = some '+' then s.data.tail else s.data
  if !cs.isEmpty && cs.all Char.isDigit then
    let v := cs.foldl (fun acc c => acc * 10 + (c.toNat - 48)) 0
    if v < 4294967296 then some v else none
  else none

/-- The query parameters the `chat` route reads from the request. -/
structure ChatParams where
  lang : Option String
  resource : Option String
  rate : Option String

/-- The connection parameters the `chat` route passes to
`user_connected`. -/
structure ChatSession where
  lang : String
  sample_rate : Nat
  resource : Option String
  deriving DecidableEq

/-- The `chat` route of `api.rs` (lines 138–152): `lang` defaults to
`"de"`, `rate` defaults to `"44100"`, and the rate string goes through
`.parse().unwrap()` — a panic whenever it does not parse as a `u32`. -/
def chat_route (params : ChatParams) : RouteResult ChatSession :=
  let lang := params.lang.getD "de"
  let rateStr := params.rate.getD "44100"
  match parseU32 rateStr with
  | some r => .ok { lang := lang, sample_rate := r, resource := params.resource }
  | none => .panic

/-- C10: the chat handler is total only when the `rate` parameter, if
present, parses as a `u32`: an absent `rate` yields 44100 and an absent
`lang` yields `"de"`, a parsing `rate` yields its value, and a
non-parsing `rate` (such as `"abc"`, or one beyond the 32-bit range)
makes the handler panic rather than reject the request. -/
theorem chat_route_spec :
    (∀ params : ChatParams, ∀ r s, params.rate = some s → parseU32 s = some r →
        chat_route params =
          .ok { lang := params.lang.getD "de", sample_rate := r,
                resource := params.resource }) ∧
    (∀ params : ChatParams, params.rate = none →
        chat_route params =
          .ok { lang := params.lang.getD "de", sample_rate := 44100,
                resource := params.resource }) ∧
    (∀ params : ChatParams, ∀ s, params.rate = some s → parseU32 s = none →
        chat_route params = .panic) ∧
    chat_route { lang := none, resource := none, rate := some "abc" } = .panic ∧
    chat_route { lang := none, resource := none, rate := some "4294967296" } = .panic := by
  refine ⟨?_, ?_, ?_, ?_, ?_⟩
  · intro params r s hs hp
    rw [chat_route, hs]; simp only [Option.getD_some, hp]
  · intro params hr
    rw [chat_route, hr]
    have h44100 : parseU32 "44100" = some 44100 := by decide
    simp only [Option.getD_none, h44100]
  · intro params s hs hp
    rw [chat_route, hs]; simp only [Option.getD_some, hp]
  · rfl
  · rfl

theorem chat_route_spec_witness :
    chat_route { lang := some "en", resource := none, rate := some "16000" } =
        RouteResult.ok { lang := "en", sample_rate := 16000, resource := none } ∧
      chat_route { lang := none, resource := some "r", rate := none } =
        RouteResult.ok { lang := "de", sample_rate := 44100, resource := some "r" } ∧
      chat_route { lang := none, resource := none, rate := some "abc" } =
        RouteResult.panic :=
  ⟨chat_route_spec.1 _ 16000 "16000" rfl (by decide),
    chat_route_spec.2.1 _ rfl,
    chat_route_spec.2.2.1 _ "abc" rfl (by decide)⟩

end Terplounge
